import Mathlib

/-!
Shallow embedding of the PoStep256 I2C stepper-driver library
(`postep256.py`) and verification of its register-protocol properties.

Modelling conventions:
* Python integers are `ℤ`; Python floats appearing in the current
  encoding are modelled as exact rationals `ℚ`.
* The SMBus transport is a `Bus`: a pure oracle giving the success of
  each block write and the reply of each block read.  The session always
  addresses its own fixed device address, so the address argument of the
  smbus calls is folded into the oracle.
* Every operation returns its Python result paired with the list of
  transport calls it attempted (`Event`s), in order.  A raised-and-caught
  exception inside `write_data`/`read_data` is the oracle answering
  `false`/`none`; the attempted call is still recorded.
* A session whose construction failed has `i2c_bus = none` (the source
  sets `self.i2c_bus = None`); the `AttributeError` raised and caught on
  every later transport touch is the `none` branch, with no event.
-/

/-- Transport oracle: success of each block write, and reply of each
block read (`none` models a raised smbus exception). -/
structure Bus where
  write : ℤ → List ℤ → Bool
  read : ℤ → ℕ → Option (List ℤ)

/-- One attempted transport call: a block write of a payload to a
register, or a block read of a given length from a register. -/
inductive Event where
  | write (register : ℤ) (payload : List ℤ)
  | read (register : ℤ) (length : ℕ)
deriving DecidableEq, Repr

/-- Device session: the source's `PoStep256` object.  `i2c_bus = none`
models `self.i2c_bus = None` after a failed construction. -/
structure PoStep256 where
  i2c_bus : Option Bus

/-- driver state constant `DRIVER_RUN = 0xda`. -/
def DRIVER_RUN : ℤ := 0xda

/-- driver state constant `DRIVER_SLEEP = 0x0f`. -/
def DRIVER_SLEEP : ℤ := 0x0f

/-- driver mode constant `MODE_DEFAULT = 0x01`. -/
def MODE_DEFAULT : ℤ := 0x01

/-- driver mode constant `MODE_POSITION_CONT = 0x04`. -/
def MODE_POSITION_CONT : ℤ := 0x04

/-- driver mode constant `MODE_BINX_BUTTONS = 0x05`. -/
def MODE_BINX_BUTTONS : ℤ := 0x05

/-- driver mode constant `MODE_AUTO = 0x06`. -/
def MODE_AUTO : ℤ := 0x06

/-- upper limit `MAX_TEMP = 120`. -/
def MAX_TEMP : ℤ := 120

/-- upper limit `MAX_CURRENT = 6.0`. -/
def MAX_CURRENT : ℚ := 6

/-- upper limit `MAX_SPEED = 60000`. -/
def MAX_SPEED : ℤ := 60000

/-- upper limit `MAX_ACCELERATION = 50000`. -/
def MAX_ACCELERATION : ℤ := 50000

/-- upper limit `MAX_BUFFER_LENGTH = 5`. -/
def MAX_BUFFER_LENGTH : ℕ := 5

/-- Python `>>` on integers: arithmetic (floor) right shift. -/
def pyShr (v : ℤ) (k : ℕ) : ℤ := Int.fdiv v (2 ^ k)

/-- Python `v & mask` for a mask `2^k - 1`: the low `k` bits, i.e.
`v mod 2^k` (Python bitwise and of an all-ones mask). -/
def pyAnd (v : ℤ) (k : ℕ) : ℤ := v % 2 ^ k

/-- `write_data(register, buffer)`: range-check the register, then issue
one block write.  Call sites that pass a bare int wrap it in a singleton
list, mirroring the source's `if not type(buffer) is list` coercion. -/
def write_data (s : PoStep256) (register : ℤ) (buffer : List ℤ := []) :
    Bool × List Event :=
  if register < 0x01 ∨ 0x60 < register then (false, [])
  else
    match s.i2c_bus with
    | none => (false, [])
    | some bus => (bus.write register buffer, [Event.write register buffer])

/-- `read_data(register, length)`: range-check register and length, then
issue one block read.  `none` is the source's `None` return. -/
def read_data (s : PoStep256) (register : ℤ) (length : ℕ) :
    Option (List ℤ) × List Event :=
  if register < 0x01 ∨ 0x60 < register then (none, [])
  else if length < 1 ∨ MAX_BUFFER_LENGTH < length then (none, [])
  else
    match s.i2c_bus with
    | none => (none, [])
    | some bus => (bus.read register length, [Event.read register length])

/-- `convert_to_byte_buffer(value)`: minimal big-endian byte list of
width 1, 2 or 4; empty list above the 32-bit domain. -/
def convert_to_byte_buffer (value : ℤ) : List ℤ :=
  if value ≤ 255 then [value]
  else if value ≤ 65535 then
    [pyShr value 8, pyAnd value 8]
  else if value ≤ 4294967295 then
    [pyShr value 24, pyShr (pyAnd value 24) 16, pyShr (pyAnd value 16) 8,
      pyAnd value 8]
  else []

/-- `read_value(register)`: select the register with a payload-less
write, then read one byte and take the first element of the reply. -/
def read_value (s : PoStep256) (register : ℤ) : Option ℤ × List Event :=
  let w := write_data s register
  if ¬ w.1 then (none, w.2)
  else
    let r := read_data s register 1
    match r.1 with
    | some (b :: _) => (some b, w.2 ++ r.2)
    | some [] => (none, w.2 ++ r.2)
    | none => (none, w.2 ++ r.2)

/-- `loopback_read()`: write the probe `[0x91,0x92,0x93,0x94]` to
register 0x01, read 5 bytes back, drop the echoed address byte and
compare with the probe.  Any failure (including the `TypeError` of
slicing `None`) yields `false`. -/
def loopback_read (s : PoStep256) : Bool × List Event :=
  let buff : List ℤ := [0x91, 0x92, 0x93, 0x94]
  let w := write_data s 0x01 buff
  if ¬ w.1 then (false, w.2)
  else
    let r := read_data s 0x01 (buff.length + 1)
    match r.1 with
    | none => (false, w.2 ++ r.2)
    | some returned =>
      (decide (returned.drop 1 = buff), w.2 ++ r.2)

/-- `PoStep256.__init__`: the session tests the connection with
`loopback_read`; on failure (or an unavailable bus, `avail = none`) it
catches the exception and leaves `i2c_bus = None`.  Construction never
raises: this function is total. -/
def init_PoStep256 (avail : Option Bus) : PoStep256 :=
  match avail with
  | none => ⟨none⟩
  | some bus =>
    let trial : PoStep256 := ⟨some bus⟩
    if (loopback_read trial).1 then trial else ⟨none⟩

/-- `set_run_sleep_mode(value)`: accept only `DRIVER_SLEEP`/`DRIVER_RUN`
and write the byte to register 0x03. -/
def set_run_sleep_mode (s : PoStep256) (value : ℤ) : Bool × List Event :=
  if value = DRIVER_SLEEP then write_data s 0x03 [value]
  else if value = DRIVER_RUN then write_data s 0x03 [value]
  else (false, [])

/-- `set_address(cur, new)`: equal addresses short-circuit to `True`;
otherwise both must lie in `[0x01, 0x7f]` before the 2-byte write to
register 0x04. -/
def set_address (s : PoStep256) (cur new : ℤ) : Bool × List Event :=
  if cur = new then (true, [])
  else if cur < 0x01 ∨ 0x7f < cur then (false, [])
  else if new < 0x01 ∨ 0x7f < new then (false, [])
  else write_data s 0x04 [cur, new]

/-- `set_zero()`: payload-less write to register 0x5e. -/
def set_zero (s : PoStep256) : Bool × List Event :=
  write_data s 0x5e

/-- `stop()`: payload-less write to register 0x5f. -/
def stop (s : PoStep256) : Bool × List Event :=
  write_data s 0x5f

/-- `set_driver_mode(value)`: request `stop` and `set_zero` first,
ignoring their results, then write the mode byte to register 0x05 when
it is `MODE_AUTO` or `MODE_DEFAULT`. -/
def set_driver_mode (s : PoStep256) (value : ℤ) : Bool × List Event :=
  let st := stop s
  let sz := set_zero s
  if value = MODE_AUTO ∨ value = MODE_DEFAULT then
    let w := write_data s 0x05 [value]
    (w.1, st.2 ++ sz.2 ++ w.2)
  else (false, st.2 ++ sz.2)

/-- `read_driver_mode()`: one-byte read of register 0x14. -/
def read_driver_mode (s : PoStep256) : Option ℤ × List Event :=
  read_value s 0x14

/-- Python `int()` applied to a rational: truncation toward zero. -/
def int_trunc (q : ℚ) : ℤ :=
  if 0 ≤ q then ⌊q⌋ else ⌈q⌉

/-- The halving loop of `set_current`: while `tq > 255`, decrement the
exponent and shift the mantissa right one bit. -/
def current_loop (tq ai : ℤ) : ℤ × ℤ :=
  if h : 255 < tq then current_loop (pyShr tq 1) (ai - 1) else (tq, ai)
termination_by tq.toNat
decreasing_by
  simp only [pyShr, pow_one, Int.fdiv_eq_ediv _ (by norm_num : (0:ℤ) ≤ 2)]
  omega

/-- `set_current(register, value)`: mantissa `int(123 * value)`, exponent
starting at 3, halved until the mantissa fits a byte; the pair is the
two-byte payload. -/
def set_current (s : PoStep256) (register : ℤ) (value : ℚ) :
    Bool × List Event :=
  let p := current_loop (int_trunc (123 * value)) 3
  write_data s register [p.1, p.2]

/-- `set_current_full_scale(value)`: range-gate `[0, MAX_CURRENT]`, then
`set_current` on register 0x30. -/
def set_current_full_scale (s : PoStep256) (value : ℚ) : Bool × List Event :=
  if value < 0 ∨ MAX_CURRENT < value then (false, [])
  else set_current s 0x30 value

/-- `set_step_mode(value)`: range-gate `[0, 8]`, then one byte to
register 0x33. -/
def set_step_mode (s : PoStep256) (value : ℤ) : Bool × List Event :=
  if value < 0 ∨ 8 < value then (false, [])
  else write_data s 0x33 [value]

/-- `set_temperature_limit(value)`: range-gate `[0, MAX_TEMP]`, then one
byte to register 0x34. -/
def set_temperature_limit (s : PoStep256) (value : ℤ) : Bool × List Event :=
  if value < 0 ∨ MAX_TEMP < value then (false, [])
  else write_data s 0x34 [value]

/-- `set_position(value)`: mode-gated on `MODE_POSITION_CONT` or
`MODE_BINX_BUTTONS`; the minimal big-endian buffer is reversed and
zero-padded to 4 bytes, then written to register 0x50. -/
def set_position (s : PoStep256) (value : ℤ) : Bool × List Event :=
  let m := read_driver_mode s
  if m.1 ≠ some MODE_POSITION_CONT ∧ m.1 ≠ some MODE_BINX_BUTTONS then
    (false, m.2)
  else
    let buffer := (convert_to_byte_buffer value).reverse
    let padded := buffer ++ List.replicate (4 - buffer.length) 0
    let w := write_data s 0x50 padded
    (w.1, m.2 ++ w.2)

/-- `set_speed(register, value)`: encode minimally; an empty encoding
fails; a 1-byte encoding gets a zero appended; a longer encoding sends
its first two bytes swapped (`[buff[1], buff[0]]`). -/
def set_speed (s : PoStep256) (register value : ℤ) : Bool × List Event :=
  match convert_to_byte_buffer value with
  | [] => (false, [])
  | [b0] => write_data s register [b0, 0]
  | b0 :: b1 :: _ => write_data s register [b1, b0]

/-- `set_max_speed(value)`: range-gate `[0, MAX_SPEED]`, speed write to
register 0x51. -/
def set_max_speed (s : PoStep256) (value : ℤ) : Bool × List Event :=
  if value < 0 ∨ MAX_SPEED < value then (false, [])
  else set_speed s 0x51 value

/-- `set_acceleration(value)`: range-gate `[0, MAX_ACCELERATION]`, speed
write to register 0x52. -/
def set_acceleration (s : PoStep256) (value : ℤ) : Bool × List Event :=
  if value < 0 ∨ MAX_ACCELERATION < value then (false, [])
  else set_speed s 0x52 value

/-- `set_deceleration(value)`: range-gate `[0, MAX_ACCELERATION]`, speed
write to register 0x53. -/
def set_deceleration (s : PoStep256) (value : ℤ) : Bool × List Event :=
  if value < 0 ∨ MAX_ACCELERATION < value then (false, [])
  else set_speed s 0x53 value

/-- `set_requested_speed(value)`: mode-gated on `MODE_AUTO` (the mode is
re-read from the device on every call), then range-gated on
`[0, MAX_SPEED]`, then a speed write to register 0x54. -/
def set_requested_speed (s : PoStep256) (value : ℤ) : Bool × List Event :=
  let m := read_driver_mode s
  if m.1 ≠ some MODE_AUTO then (false, m.2)
  else if value < 0 ∨ MAX_SPEED < value then (false, m.2)
  else
    let w := set_speed s 0x54 value
    (w.1, m.2 ++ w.2)

/-- Modelled from the spec: `encodeCurrent(amps)` takes mantissa
`round(123 × amps)` (the spec's wording), exponent starting at 3, and
the same halving loop; to be compared against the source's
`set_current`, which truncates with `int()` instead of rounding. -/
def encodeCurrent_spec (amps : ℚ) : ℤ × ℤ :=
  current_loop (round (123 * amps)) 3

/-- Modelled from the spec: the big-endian decoder that the spec pairs
with `encodeMinimalBigEndian` (the source only implements the encoding
direction). -/
def decode_big_endian (bytes : List ℤ) : ℤ :=
  bytes.foldl (fun acc b => 256 * acc + b) 0

/-- A live bus on which every write succeeds and every read returns a
block of `MODE_DEFAULT` bytes (so the reported driver mode is 1). -/
def busDefaultMode : Bus :=
  ⟨fun _ _ => true, fun _ n => some (List.replicate n MODE_DEFAULT)⟩

/-- A live bus on which every write succeeds and every read reports
`MODE_AUTO` bytes. -/
def busAutoMode : Bus :=
  ⟨fun _ _ => true, fun _ n => some (List.replicate n MODE_AUTO)⟩

/-- A live bus on which every write succeeds and every read reports
`MODE_POSITION_CONT` bytes. -/
def busPosMode : Bus :=
  ⟨fun _ _ => true, fun _ n => some (List.replicate n MODE_POSITION_CONT)⟩

/-- A dead bus: every write fails, every read raises. -/
def busDown : Bus :=
  ⟨fun _ _ => false, fun _ _ => none⟩

/-! ### Lemmas about the `set_current` halving loop -/

theorem current_loop_of_le {tq ai : ℤ} (h : tq ≤ 255) :
    current_loop tq ai = (tq, ai) := by
  rw [current_loop]
  simp [not_lt.2 h]

theorem current_loop_of_gt {tq ai : ℤ} (h : 255 < tq) :
    current_loop tq ai = current_loop (pyShr tq 1) (ai - 1) := by
  rw [current_loop]
  simp [h]

theorem pyShr_ofNat (n : ℕ) (k : ℕ) :
    pyShr (n : ℤ) k = ((n / 2 ^ k : ℕ) : ℤ) := by
  rw [pyShr, Int.fdiv_eq_ediv _ (by positivity)]
  push_cast
  rfl

/-- Full characterisation of the halving loop on a non-negative
mantissa: it performs some number `k` of right shifts, stopping at the
first `k` whose shifted mantissa fits in a byte. -/
theorem current_loop_ofNat (n : ℕ) : ∀ ai : ℤ,
    ∃ k : ℕ, current_loop (n : ℤ) ai = (((n / 2 ^ k : ℕ) : ℤ), ai - k) ∧
      n / 2 ^ k ≤ 255 ∧ ∀ j : ℕ, j < k → 255 < n / 2 ^ j := by
  induction n using Nat.strong_induction_on with
  | _ n ih =>
    intro ai
    by_cases h : 255 < (n : ℤ)
    · have hn : 255 < n := by exact_mod_cast h
      rw [current_loop_of_gt h]
      have hshr : pyShr (n : ℤ) 1 = ((n / 2 : ℕ) : ℤ) := by
        simpa using pyShr_ofNat n 1
      rw [hshr]
      obtain ⟨k, hk, hle, hgt⟩ :=
        ih (n / 2) (Nat.div_lt_self (by omega) one_lt_two) (ai - 1)
      have hdiv : ∀ j : ℕ, n / 2 / 2 ^ j = n / 2 ^ (j + 1) := by
        intro j
        rw [Nat.div_div_eq_div_mul, pow_succ, mul_comm (2 ^ j) 2]
      refine ⟨k + 1, ?_, ?_, ?_⟩
      · rw [hk, hdiv k]
        congr 1
        push_cast
        ring
      · rw [← hdiv k]
        exact hle
      · intro j hj
        cases j with
        | zero => simpa using hn
        | succ j' =>
          rw [← hdiv j']
          exact hgt j' (by omega)
    · push_neg at h
      rw [current_loop_of_le h]
      refine ⟨0, by simp, ?_, by omega⟩
      omega

/-- The loop started at exponent 3 on a non-negative mantissa `m` stops
at the largest exponent `e ≤ 3` for which `m >> (3 - e)` fits a byte. -/
theorem current_loop_maximal_exponent {m : ℤ} (hm : 0 ≤ m) :
    (current_loop m 3).1 = pyShr m (3 - (current_loop m 3).2).toNat ∧
    (current_loop m 3).1 ≤ 255 ∧ (current_loop m 3).2 ≤ 3 ∧
    ∀ e : ℤ, (current_loop m 3).2 < e → e ≤ 3 →
      255 < pyShr m (3 - e).toNat := by
  obtain ⟨n, rfl⟩ := Int.eq_ofNat_of_zero_le hm
  obtain ⟨k, hk, hle, hgt⟩ := current_loop_ofNat n 3
  rw [hk]
  dsimp only
  have h3k : ((3 : ℤ) - (3 - (k : ℤ))).toNat = k := by omega
  refine ⟨?_, ?_, by omega, ?_⟩
  · rw [h3k, pyShr_ofNat]
  · exact_mod_cast hle
  · intro e he he3
    have hje : ((3 : ℤ) - e).toNat < k := by omega
    have := hgt ((3 - e).toNat) hje
    rw [pyShr_ofNat]
    exact_mod_cast this

/-! ### General helper lemmas -/

theorem pyShr_eq_ediv (v : ℤ) (k : ℕ) : pyShr v k = v / 2 ^ k :=
  Int.fdiv_eq_ediv _ (by positivity)

theorem write_data_live (bus : Bus) (r : ℤ) (b : List ℤ)
    (h1 : 0x01 ≤ r) (h2 : r ≤ 0x60) :
    write_data ⟨some bus⟩ r b = (bus.write r b, [Event.write r b]) := by
  rw [write_data, if_neg (by omega)]

theorem read_data_live (bus : Bus) (r : ℤ) (n : ℕ)
    (h1 : 0x01 ≤ r) (h2 : r ≤ 0x60) (h3 : 1 ≤ n) (h4 : n ≤ 5) :
    read_data ⟨some bus⟩ r n = (bus.read r n, [Event.read r n]) := by
  rw [read_data, if_neg (by omega), if_neg]
  rw [MAX_BUFFER_LENGTH]
  omega

/-- On a live session the trace of `read_value` is the register-select
write, followed by the one-byte read when the select write succeeded. -/
theorem read_value_trace (bus : Bus) (r : ℤ) (h1 : 0x01 ≤ r) (h2 : r ≤ 0x60) :
    (read_value ⟨some bus⟩ r).2 = [Event.write r []] ∨
    (read_value ⟨some bus⟩ r).2 = [Event.write r [], Event.read r 1] := by
  rw [read_value]
  rw [write_data_live bus r [] h1 h2, read_data_live bus r 1 h1 h2 le_rfl (by omega)]
  cases hw : bus.write r [] with
  | false => simp
  | true =>
    cases hr : bus.read r 1 with
    | none => simp
    | some l =>
      cases l with
      | nil => simp
      | cons b t => simp

theorem write_data_dead {s : PoStep256} (h : s.i2c_bus = none)
    (r : ℤ) (b : List ℤ) : write_data s r b = (false, []) := by
  rw [write_data, h]
  split
  · rfl
  · rfl

theorem read_data_dead {s : PoStep256} (h : s.i2c_bus = none)
    (r : ℤ) (n : ℕ) : read_data s r n = (none, []) := by
  rw [read_data, h]
  split
  · rfl
  · split
    · rfl
    · rfl

theorem read_value_dead {s : PoStep256} (h : s.i2c_bus = none)
    (r : ℤ) : read_value s r = (none, []) := by
  rw [read_value, write_data_dead h]
  simp

theorem loopback_read_dead {s : PoStep256} (h : s.i2c_bus = none) :
    loopback_read s = (false, []) := by
  rw [loopback_read, write_data_dead h]
  simp

/-- The payload `set_speed` sends, for any value in the 16-bit domain,
is the 2-byte little-endian rendering of the value. -/
theorem set_speed_payload (s : PoStep256) (r v : ℤ)
    (h0 : 0 ≤ v) (h1 : v ≤ 65535) :
    set_speed s r v = write_data s r [pyAnd v 8, pyShr v 8] := by
  by_cases h : v ≤ 255
  · have hc : convert_to_byte_buffer v = [v] := by
      rw [convert_to_byte_buffer, if_pos h]
    have ha : pyAnd v 8 = v := by
      rw [pyAnd]
      norm_num
      omega
    have hs : pyShr v 8 = 0 := by
      rw [pyShr_eq_ediv]
      norm_num
      omega
    rw [set_speed, hc, ha, hs]
  · have hc : convert_to_byte_buffer v = [pyShr v 8, pyAnd v 8] := by
      rw [convert_to_byte_buffer, if_neg (by omega), if_pos h1]
    rw [set_speed, hc]

/-! ### Claim theorems -/

/-- Claim C4: the byte-buffer encoder returns `[v]` on `[0, 255]`,
returns `[v >> 8, v & 0xFF]` on `[256, 65535]` with big-endian decoding
recovering `v`, and returns the empty sequence above the 32-bit
domain. -/
theorem convert_to_byte_buffer_cases (v : ℤ) :
    (0 ≤ v → v ≤ 255 → convert_to_byte_buffer v = [v]) ∧
    (256 ≤ v → v ≤ 65535 →
      convert_to_byte_buffer v = [pyShr v 8, pyAnd v 8] ∧
      decode_big_endian (convert_to_byte_buffer v) = v) ∧
    (4294967295 < v → convert_to_byte_buffer v = []) := by
  refine ⟨fun _ h2 => ?_, fun hl hh => ⟨?_, ?_⟩, fun hb => ?_⟩
  · rw [convert_to_byte_buffer, if_pos h2]
  · rw [convert_to_byte_buffer, if_neg (by omega), if_pos hh]
  · rw [convert_to_byte_buffer, if_neg (by omega), if_pos hh]
    rw [decode_big_endian, pyShr_eq_ediv, pyAnd]
    simp only [List.foldl]
    norm_num
    omega
  · rw [convert_to_byte_buffer, if_neg (by omega), if_neg (by omega),
      if_neg (by omega)]

/-- Witness for C4 at 7, 300 and 5000000000. -/
theorem convert_to_byte_buffer_cases_witness :
    convert_to_byte_buffer 7 = [7] ∧
    (convert_to_byte_buffer 300 = [pyShr 300 8, pyAnd 300 8] ∧
      decode_big_endian (convert_to_byte_buffer 300) = 300) ∧
    convert_to_byte_buffer 5000000000 = [] :=
  ⟨(convert_to_byte_buffer_cases 7).1 (by norm_num) (by norm_num),
   (convert_to_byte_buffer_cases 300).2.1 (by norm_num) (by norm_num),
   (convert_to_byte_buffer_cases 5000000000).2.2 (by norm_num)⟩

/-- Claim C1, counterexample: the spec says the mantissa is
`round(123 × amps)`, but the source truncates with `int()`.  At
`amps = 1/2` the spec's encoder gives mantissa 62 while the code writes
mantissa 61. -/
theorem set_current_round_counterexample :
    encodeCurrent_spec (1/2) = (62, 3) ∧
    (set_current ⟨some busDefaultMode⟩ 0x30 (1/2)).2 =
      [Event.write 0x30 [61, 3]] ∧
    (61 : ℤ) ≠ 62 := by
  have h2 : round ((123 : ℚ) * (1/2)) = 62 := by
    norm_num [round_eq]
  have h1 : int_trunc (123 * (1/2)) = 61 := by
    rw [int_trunc, if_pos (by norm_num)]
    norm_num [Int.floor_eq_iff]
  have h3 : current_loop (int_trunc (123 * (1/2 : ℚ))) 3 = (61, 3) := by
    rw [h1]
    exact current_loop_of_le (by norm_num)
  refine ⟨?_, ?_, by norm_num⟩
  · rw [encodeCurrent_spec, h2]
    exact current_loop_of_le (by norm_num)
  · rw [set_current]
    rw [h3]
    rw [write_data_live busDefaultMode 0x30 [61, 3] (by norm_num) (by norm_num)]

/-- Claim C1 (amended): for `amps ∈ [0, 6]` the current encoding takes
mantissa `int(123 × amps)` — truncation, not rounding — starts with
exponent 3, and halves the mantissa (right shift) decrementing the
exponent while it exceeds 255; the resulting exponent is the largest
value ≤ 3 whose shifted mantissa fits one byte, and the mantissa /
exponent pair is exactly the two-byte payload written to the
register. -/
theorem set_current_trunc_and_maximal_exponent (bus : Bus) (register : ℤ)
    (a : ℚ) (h0 : 0 ≤ a) (h6 : a ≤ 6)
    (hr1 : 0x01 ≤ register) (hr2 : register ≤ 0x60) :
    int_trunc (123 * a) = ⌊(123 : ℚ) * a⌋ ∧
    (set_current ⟨some bus⟩ register a).2 =
      [Event.write register
        [(current_loop (int_trunc (123 * a)) 3).1,
         (current_loop (int_trunc (123 * a)) 3).2]] ∧
    (current_loop (int_trunc (123 * a)) 3).1 =
      pyShr (int_trunc (123 * a))
        (3 - (current_loop (int_trunc (123 * a)) 3).2).toNat ∧
    (current_loop (int_trunc (123 * a)) 3).1 ≤ 255 ∧
    (current_loop (int_trunc (123 * a)) 3).2 ≤ 3 ∧
    ∀ e : ℤ, (current_loop (int_trunc (123 * a)) 3).2 < e → e ≤ 3 →
      255 < pyShr (int_trunc (123 * a)) (3 - e).toNat := by
  have hfl : int_trunc (123 * a) = ⌊(123 : ℚ) * a⌋ := by
    rw [int_trunc, if_pos (by positivity)]
  have hnn : 0 ≤ int_trunc (123 * a) := by
    rw [hfl]
    exact Int.floor_nonneg.2 (by positivity)
  obtain ⟨hm, hle, he3, hmax⟩ := current_loop_maximal_exponent hnn
  refine ⟨hfl, ?_, hm, hle, he3, hmax⟩
  rw [set_current]
  rw [write_data_live bus register _ hr1 hr2]

/-- Witness for C1 (amended) at `amps = 1/2` on register 0x30. -/
theorem set_current_trunc_witness :
    (set_current ⟨some busDefaultMode⟩ 0x30 (1/2)).2 =
      [Event.write 0x30
        [(current_loop (int_trunc (123 * (1/2 : ℚ))) 3).1,
         (current_loop (int_trunc (123 * (1/2 : ℚ))) 3).2]] :=
  (set_current_trunc_and_maximal_exponent busDefaultMode 0x30 (1/2)
    (by norm_num) (by norm_num) (by norm_num) (by norm_num)).2.1

/-- Claim C2, counterexample: for an in-range speed value whose minimal
encoding is one byte, the payload is not that single byte — the code
appends a zero, sending a 2-byte payload.  At `set_max_speed 5` the
minimal encoding is `[5]` but the payload is `[5, 0]`. -/
theorem set_speed_one_byte_counterexample :
    convert_to_byte_buffer 5 = [5] ∧
    (set_max_speed ⟨some busDefaultMode⟩ 5).2 = [Event.write 0x51 [5, 0]] ∧
    ([5, 0] : List ℤ) ≠ [5] := by
  refine ⟨by decide, ?_, by decide⟩
  decide

/-- Claim C2 (amended): every in-range speed-class value is sent as a
2-byte payload: the minimal encoding least-significant byte first when
that encoding is 2 bytes wide, and the single byte followed by one zero
byte when it is 1 byte wide — uniformly `[v & 0xFF, v >> 8]`. -/
theorem speed_setters_payload (bus : Bus) (v : ℤ) (h0 : 0 ≤ v) :
    (v ≤ 255 → ([pyAnd v 8, pyShr v 8] : List ℤ) = [v, 0]) ∧
    (v ≤ 60000 → (set_max_speed ⟨some bus⟩ v).2 =
      [Event.write 0x51 [pyAnd v 8, pyShr v 8]]) ∧
    (v ≤ 50000 → (set_acceleration ⟨some bus⟩ v).2 =
      [Event.write 0x52 [pyAnd v 8, pyShr v 8]]) ∧
    (v ≤ 50000 → (set_deceleration ⟨some bus⟩ v).2 =
      [Event.write 0x53 [pyAnd v 8, pyShr v 8]]) ∧
    (v ≤ 60000 → (read_driver_mode ⟨some bus⟩).1 = some MODE_AUTO →
      (set_requested_speed ⟨some bus⟩ v).2 =
        (read_driver_mode ⟨some bus⟩).2 ++
          [Event.write 0x54 [pyAnd v 8, pyShr v 8]]) := by
  refine ⟨fun h255 => ?_, fun h6 => ?_, fun h5 => ?_, fun h5 => ?_,
    fun h6 hm => ?_⟩
  · have ha : pyAnd v 8 = v := by
      rw [pyAnd]
      norm_num
      omega
    have hs : pyShr v 8 = 0 := by
      rw [pyShr_eq_ediv]
      norm_num
      omega
    rw [ha, hs]
  · rw [set_max_speed, if_neg (by rw [MAX_SPEED]; omega),
      set_speed_payload _ _ _ h0 (by omega),
      write_data_live bus 0x51 _ (by norm_num) (by norm_num)]
  · rw [set_acceleration, if_neg (by rw [MAX_ACCELERATION]; omega),
      set_speed_payload _ _ _ h0 (by omega),
      write_data_live bus 0x52 _ (by norm_num) (by norm_num)]
  · rw [set_deceleration, if_neg (by rw [MAX_ACCELERATION]; omega),
      set_speed_payload _ _ _ h0 (by omega),
      write_data_live bus 0x53 _ (by norm_num) (by norm_num)]
  · rw [set_requested_speed]
    rw [if_neg (by rw [hm]; simp), if_neg (by rw [MAX_SPEED]; omega),
      set_speed_payload _ _ _ h0 (by omega),
      write_data_live bus 0x54 _ (by norm_num) (by norm_num)]

/-- Witness for C2 (amended) at `v = 300` (2-byte encoding) and
`v = 5` (1-byte encoding) on a bus reporting `MODE_AUTO`. -/
theorem speed_setters_payload_witness :
    (set_max_speed ⟨some busAutoMode⟩ 300).2 =
      [Event.write 0x51 [pyAnd 300 8, pyShr 300 8]] ∧
    ([pyAnd 5 8, pyShr 5 8] : List ℤ) = [5, 0] ∧
    (set_requested_speed ⟨some busAutoMode⟩ 300).2 =
      (read_driver_mode ⟨some busAutoMode⟩).2 ++
        [Event.write 0x54 [pyAnd 300 8, pyShr 300 8]] :=
  ⟨(speed_setters_payload busAutoMode 300 (by norm_num)).2.1 (by norm_num),
   (speed_setters_payload busAutoMode 5 (by norm_num)).1 (by norm_num),
   (speed_setters_payload busAutoMode 300 (by norm_num)).2.2.2.2
     (by norm_num) (by decide)⟩

/-- Claim C3: `set_driver_mode MODE_AUTO` issues exactly three transport
writes in order — stop to 0x5F with no payload, zero to 0x5E with no
payload, then the mode write to 0x05 with payload `[0x06]` — for every
bus, in particular also when the stop and/or zero writes fail. -/
theorem set_driver_mode_auto_three_writes (bus : Bus) :
    (set_driver_mode ⟨some bus⟩ MODE_AUTO).2 =
      [Event.write 0x5f [], Event.write 0x5e [],
        Event.write 0x05 [(MODE_AUTO)]] ∧
    (set_driver_mode ⟨some bus⟩ MODE_AUTO).1 =
      bus.write 0x05 [(MODE_AUTO)] := by
  rw [set_driver_mode, if_pos (Or.inl rfl), stop, set_zero]
  rw [write_data_live bus 0x5f [] (by norm_num) (by norm_num),
    write_data_live bus 0x5e [] (by norm_num) (by norm_num),
    write_data_live bus 0x05 [(MODE_AUTO)] (by norm_num) (by norm_num)]
  exact ⟨rfl, rfl⟩

/-- Claim C5, counterexample: when the reported mode is not `MODE_AUTO`,
`set_requested_speed` does return failure, but a transport write call
still occurs: the mode re-query itself issues a payload-less
`write_i2c_block_data` to register 0x14. -/
theorem requested_speed_write_occurs_counterexample :
    (read_driver_mode ⟨some busDefaultMode⟩).1 = some MODE_DEFAULT ∧
    MODE_DEFAULT ≠ MODE_AUTO ∧
    (set_requested_speed ⟨some busDefaultMode⟩ 100).1 = false ∧
    Event.write 0x14 [] ∈ (set_requested_speed ⟨some busDefaultMode⟩ 100).2 := by
  refine ⟨by decide, by decide, by decide, by decide⟩

/-- Claim C5 (amended): when the reported driver mode is not
`MODE_AUTO`, `set_requested_speed` returns failure, its whole trace is
the mode re-query itself (performed anew on every call), and the only
transport *write* in it is the query's payload-less register select of
0x14 — no write to the speed register, and no payload-carrying write,
occurs. -/
theorem requested_speed_mode_gate (bus : Bus) (v : ℤ)
    (h : (read_driver_mode ⟨some bus⟩).1 ≠ some MODE_AUTO) :
    (set_requested_speed ⟨some bus⟩ v).1 = false ∧
    (set_requested_speed ⟨some bus⟩ v).2 = (read_driver_mode ⟨some bus⟩).2 ∧
    ∀ r p, Event.write r p ∈ (set_requested_speed ⟨some bus⟩ v).2 →
      r = 0x14 ∧ p = [] := by
  have htr : (set_requested_speed ⟨some bus⟩ v) =
      (false, (read_driver_mode ⟨some bus⟩).2) := by
    rw [set_requested_speed, if_pos h]
  refine ⟨by rw [htr], by rw [htr], ?_⟩
  intro r p hmem
  rw [htr] at hmem
  rcases read_value_trace bus 0x14 (by norm_num) (by norm_num) with hq | hq <;>
    rw [read_driver_mode] at * <;> rw [hq] at hmem <;>
      simp at hmem <;> exact ⟨hmem.1, hmem.2⟩

/-- Witness for C5 (amended) on a bus reporting `MODE_DEFAULT`. -/
theorem requested_speed_mode_gate_witness :
    (set_requested_speed ⟨some busDefaultMode⟩ 100).1 = false ∧
    (set_requested_speed ⟨some busDefaultMode⟩ 100).2 =
      (read_driver_mode ⟨some busDefaultMode⟩).2 :=
  ⟨(requested_speed_mode_gate busDefaultMode 100 (by decide)).1,
   (requested_speed_mode_gate busDefaultMode 100 (by decide)).2.1⟩

/-- Claim C6: `loopback_read` returns `True` iff the transport write of
the probe `[0x91, 0x92, 0x93, 0x94]` to register 0x01 succeeds and the
5-byte read from 0x01 returns a block whose bytes after the first are
exactly the probe; every other outcome gives `False` (the model is a
total function, so no exception escapes). -/
theorem loopback_read_iff (bus : Bus) :
    (loopback_read ⟨some bus⟩).1 = true ↔
      (bus.write 0x01 [0x91, 0x92, 0x93, 0x94] = true ∧
        ∃ l, bus.read 0x01 5 = some l ∧
          l.drop 1 = [0x91, 0x92, 0x93, 0x94]) := by
  rw [loopback_read]
  rw [write_data_live bus 0x01 _ (by norm_num) (by norm_num)]
  cases hw : bus.write 0x01 [0x91, 0x92, 0x93, 0x94] with
  | false => simp
  | true =>
    have h5 : ([0x91, 0x92, 0x93, 0x94] : List ℤ).length + 1 = 5 := by decide
    rw [h5, read_data_live bus 0x01 5 (by norm_num) (by norm_num)
      (by norm_num) (by norm_num)]
    cases hr : bus.read 0x01 5 with
    | none => simp
    | some l => simp

/-- Claim C7: inputs outside the documented numeric domain make the
write-only setters return failure with no transport interaction:
`set_acceleration` outside `[0, 50000]` and `set_temperature_limit`
outside `[0, 120]` both return `False` with an empty trace. -/
theorem range_rejection_no_transport (s : PoStep256) (v w : ℤ)
    (hv : v < 0 ∨ 50000 < v) (hw : w < 0 ∨ 120 < w) :
    set_acceleration s v = (false, []) ∧
    set_temperature_limit s w = (false, []) := by
  have hv' : v < 0 ∨ MAX_ACCELERATION < v := hv
  have hw' : w < 0 ∨ MAX_TEMP < w := hw
  exact ⟨by rw [set_acceleration, if_pos hv'],
    by rw [set_temperature_limit, if_pos hw']⟩

/-- Witness for C7 at `set_acceleration 50001` and
`set_temperature_limit 121`. -/
theorem range_rejection_witness :
    set_acceleration (PoStep256.mk (some busDefaultMode)) 50001 = (false, []) ∧
    set_temperature_limit (PoStep256.mk (some busDefaultMode)) 121 = (false, []) :=
  range_rejection_no_transport ⟨some busDefaultMode⟩ 50001 121
    (Or.inr (by norm_num)) (Or.inr (by norm_num))

/-- Claim C8: with the mode gate passing and `v` in the 32-bit domain,
`set_position v` writes to register 0x50 a payload of exactly 4 bytes:
the minimal big-endian encoding in full reverse (little-endian) order,
zero-padded at the end to 4 bytes — i.e. the 4-byte little-endian
rendering of `v`. -/
theorem set_position_payload (bus : Bus) (v : ℤ)
    (h0 : 0 ≤ v) (h1 : v ≤ 4294967295)
    (hm : (read_driver_mode ⟨some bus⟩).1 = some MODE_POSITION_CONT ∨
          (read_driver_mode ⟨some bus⟩).1 = some MODE_BINX_BUTTONS) :
    (set_position ⟨some bus⟩ v).2 =
      (read_driver_mode ⟨some bus⟩).2 ++
        [Event.write 0x50
          ((convert_to_byte_buffer v).reverse ++
            List.replicate (4 - (convert_to_byte_buffer v).reverse.length) 0)] ∧
    (convert_to_byte_buffer v).reverse ++
        List.replicate (4 - (convert_to_byte_buffer v).reverse.length) 0 =
      [pyAnd v 8, pyAnd (pyShr v 8) 8, pyAnd (pyShr v 16) 8, pyShr v 24] := by
  have e8 : (2:ℤ) ^ (8:ℕ) = 256 := by norm_num
  have e16 : (2:ℤ) ^ (16:ℕ) = 65536 := by norm_num
  have e24 : (2:ℤ) ^ (24:ℕ) = 16777216 := by norm_num
  have hA8 : pyAnd v 8 = v % 256 := by rw [pyAnd, e8]
  have hS8 : pyShr v 8 = v / 256 := by rw [pyShr_eq_ediv, e8]
  have hS16 : pyShr v 16 = v / 65536 := by rw [pyShr_eq_ediv, e16]
  have hS24 : pyShr v 24 = v / 16777216 := by rw [pyShr_eq_ediv, e24]
  have hSA8 : pyAnd (pyShr v 8) 8 = v / 256 % 256 := by rw [pyAnd, hS8, e8]
  have hSA16 : pyAnd (pyShr v 16) 8 = v / 65536 % 256 := by
    rw [pyAnd, hS16, e8]
  have hSA8b : pyAnd (v / 256) 8 = v / 256 % 256 := by rw [pyAnd, e8]
  have hSA16b : pyAnd (v / 65536) 8 = v / 65536 % 256 := by rw [pyAnd, e8]
  constructor
  · have hgate : ¬ ((read_driver_mode ⟨some bus⟩).1 ≠ some MODE_POSITION_CONT ∧
        (read_driver_mode ⟨some bus⟩).1 ≠ some MODE_BINX_BUTTONS) := by
      rcases hm with h | h <;> simp [h]
    simp only [set_position, if_neg hgate]
    rw [write_data_live bus 0x50 _ (by norm_num) (by norm_num)]
  · by_cases hA : v ≤ 255
    · have hc : convert_to_byte_buffer v = [v] := by
        rw [convert_to_byte_buffer, if_pos hA]
      rw [hc]
      simp only [List.reverse_cons, List.reverse_nil, List.nil_append,
        List.length_cons, List.length_nil, List.cons.injEq, hA8, hSA8,
        hSA16, hS24]
      norm_num [List.replicate]
      omega
    · by_cases hB : v ≤ 65535
      · have hc : convert_to_byte_buffer v = [pyShr v 8, pyAnd v 8] := by
          rw [convert_to_byte_buffer, if_neg (by omega), if_pos hB]
        rw [hc]
        simp only [List.reverse_cons, List.reverse_nil, List.nil_append,
          List.length_append, List.length_cons, List.length_nil,
          List.cons.injEq, hA8, hS8, hS16, hSA8, hSA16, hSA8b, hSA16b, hS24]
        norm_num [List.replicate]
        omega
      · have hc : convert_to_byte_buffer v =
            [pyShr v 24, pyShr (pyAnd v 24) 16, pyShr (pyAnd v 16) 8,
              pyAnd v 8] := by
          rw [convert_to_byte_buffer, if_neg (by omega), if_neg (by omega),
            if_pos h1]
        have hM16 : pyAnd v 16 = v % 65536 := by rw [pyAnd, e16]
        have hM24 : pyAnd v 24 = v % 16777216 := by rw [pyAnd, e24]
        have hX1 : pyShr (pyAnd v 16) 8 = v % 65536 / 256 := by
          rw [hM16, pyShr_eq_ediv, e8]
        have hX2 : pyShr (pyAnd v 24) 16 = v % 16777216 / 65536 := by
          rw [hM24, pyShr_eq_ediv, e16]
        rw [hc]
        simp only [List.reverse_cons, List.reverse_nil, List.nil_append,
          List.length_append, List.length_cons, List.length_nil,
          List.cons.injEq, hA8, hX1, hX2, hS24, hSA8, hSA16]
        norm_num [List.replicate]
        omega

/-- Witness for C8 at `v = 77` on a bus reporting
`MODE_POSITION_CONT`. -/
theorem set_position_payload_witness :
    (set_position ⟨some busPosMode⟩ 77).2 =
      (read_driver_mode ⟨some busPosMode⟩).2 ++
        [Event.write 0x50
          ((convert_to_byte_buffer 77).reverse ++
            List.replicate (4 - (convert_to_byte_buffer 77).reverse.length) 0)] :=
  (set_position_payload busPosMode 77 (by norm_num) (by norm_num)
    (Or.inl (by decide))).1

/-- Claim C9, counterexample: on a session whose construction-time
loopback self-test failed, not every operation returns its failure
result: `set_address` with equal addresses still returns `True`
(though without a transport call). -/
theorem dead_session_success_counterexample :
    init_PoStep256 (some busDown) = PoStep256.mk none ∧
    set_address (init_PoStep256 (some busDown)) 3 3 = (true, []) ∧
    (true : Bool) ≠ false :=
  ⟨rfl, rfl, by decide⟩

/-- Claim C9 (amended): construction is total (never raises) and marks
the session non-functional (`i2c_bus = none`) when the loopback
self-test fails; on such a session every operation performs no
transport call, and every operation except the equal-address
`set_address` no-op returns its failure result (`false` or `none`);
`set_address a a` returns `True`, still without a transport call. -/
theorem dead_session_ops (s : PoStep256) (h : s.i2c_bus = none) :
    init_PoStep256 none = PoStep256.mk none ∧
    (∀ bus, (loopback_read ⟨some bus⟩).1 = false →
      init_PoStep256 (some bus) = PoStep256.mk none) ∧
    (∀ r b, write_data s r b = (false, [])) ∧
    (∀ r n, read_data s r n = (none, [])) ∧
    (∀ r, read_value s r = (none, [])) ∧
    loopback_read s = (false, []) ∧
    (∀ v, set_run_sleep_mode s v = (false, [])) ∧
    (∀ a b, a ≠ b → set_address s a b = (false, [])) ∧
    (∀ a, set_address s a a = (true, [])) ∧
    (∀ v, set_driver_mode s v = (false, [])) ∧
    (∀ r a, set_current s r a = (false, [])) ∧
    (∀ a, set_current_full_scale s a = (false, [])) ∧
    (∀ v, set_step_mode s v = (false, [])) ∧
    (∀ v, set_temperature_limit s v = (false, [])) ∧
    (∀ v, set_position s v = (false, [])) ∧
    (∀ r v, set_speed s r v = (false, [])) ∧
    (∀ v, set_max_speed s v = (false, [])) ∧
    (∀ v, set_acceleration s v = (false, [])) ∧
    (∀ v, set_deceleration s v = (false, [])) ∧
    (∀ v, set_requested_speed s v = (false, [])) ∧
    set_zero s = (false, []) ∧ stop s = (false, []) := by
  have hsp : ∀ r v, set_speed s r v = (false, []) := by
    intro r v
    rcases hc : convert_to_byte_buffer v with _ | ⟨b0, _ | ⟨b1, t2⟩⟩ <;>
      simp [set_speed, hc, write_data_dead h]
  refine ⟨rfl, fun bus hlb => ?_, fun r b => write_data_dead h r b,
    fun r n => read_data_dead h r n, fun r => read_value_dead h r,
    loopback_read_dead h, fun v => ?_, fun a b hab => ?_, fun a => ?_,
    fun v => ?_, fun r a => ?_, fun a => ?_, fun v => ?_, fun v => ?_,
    fun v => ?_, hsp, fun v => ?_, fun v => ?_, fun v => ?_, fun v => ?_,
    write_data_dead h _ _, write_data_dead h _ _⟩
  · simp [init_PoStep256, hlb]
  · rw [set_run_sleep_mode]
    split
    · exact write_data_dead h _ _
    · split
      · exact write_data_dead h _ _
      · rfl
  · rw [set_address, if_neg hab]
    split
    · rfl
    · split
      · rfl
      · exact write_data_dead h _ _
  · rw [set_address, if_pos rfl]
  · simp [set_driver_mode, stop, set_zero, write_data_dead h]
  · simp [set_current, write_data_dead h]
  · simp [set_current_full_scale, set_current, write_data_dead h]
  · simp [set_step_mode, write_data_dead h]
  · simp [set_temperature_limit, write_data_dead h]
  · simp [set_position, read_driver_mode, read_value_dead h,
      write_data_dead h]
  · simp [set_max_speed, hsp]
  · simp [set_acceleration, hsp]
  · simp [set_deceleration, hsp]
  · simp [set_requested_speed, read_driver_mode, read_value_dead h]

/-- Witness for C9 (amended) on the session `⟨none⟩`. -/
theorem dead_session_ops_witness :
    write_data (PoStep256.mk none) 0x51 [1] = (false, []) ∧
    set_requested_speed (PoStep256.mk none) 100 = (false, []) ∧
    set_position (PoStep256.mk none) 4000 = (false, []) ∧
    set_address (PoStep256.mk none) 3 3 = (true, []) := by
  obtain ⟨h1, h2, h3, h4, h5, h6, h7, h8, h9, h10, h11, h12, h13, h14,
    h15, h16, h17, h18, h19, h20, h21, h22⟩ := dead_session_ops ⟨none⟩ rfl
  exact ⟨h3 0x51 [1], h20 100, h15 4000, h9 3⟩

/-- Claim C10: `set_address a a` returns `True` with no transport call,
even for out-of-range addresses; only differing addresses are
range-checked, and an out-of-range address then gives `False` with no
transport call. -/
theorem set_address_equal_shortcut (s : PoStep256) (a b : ℤ) :
    set_address s a a = (true, []) ∧
    (a ≠ b → (a < 0x01 ∨ 0x7f < a ∨ b < 0x01 ∨ 0x7f < b) →
      set_address s a b = (false, [])) := by
  constructor
  · rw [set_address, if_pos rfl]
  · intro hne hr
    rw [set_address, if_neg hne]
    by_cases ha : a < 0x01 ∨ 0x7f < a
    · rw [if_pos ha]
    · rw [if_neg ha, if_pos (by omega)]

/-- Witness for C10 at the out-of-range address 200 (equal case) and at
the differing pair (200, 3). -/
theorem set_address_equal_shortcut_witness :
    set_address (PoStep256.mk (some busDefaultMode)) 200 200 = (true, []) ∧
    set_address (PoStep256.mk (some busDefaultMode)) 200 3 = (false, []) :=
  ⟨(set_address_equal_shortcut ⟨some busDefaultMode⟩ 200 3).1,
   (set_address_equal_shortcut ⟨some busDefaultMode⟩ 200 3).2 (by norm_num)
     (Or.inr (Or.inl (by norm_num)))⟩
